import Mathlib

/-!
Shallow embedding of the Mergington High School API (`src/app.py`): an
in-memory activity database, a file-backed teacher credential set, an
in-memory admin session table, and the request handlers over them.

Modelling conventions:
* Python strings are Lean `String`s (sequences of characters); where the
  Python code uses `str.startswith`, we model it as a char-list check.
* Python dicts are association lists with unique keys.  CPython dicts
  preserve insertion order; assignment to an existing key keeps its
  position, assignment to a new key appends, and `pop` removes the
  entry.  The helpers `dictInsert`/`dictPop`/`dictSet` mirror
  exactly this.
* Timestamps (`datetime.utcnow()` and the stored expiry strings, which
  round-trip losslessly through `isoformat`/`fromisoformat` for every
  value the program ever stores) are natural numbers counting seconds,
  so `timedelta(hours=8)` is `8 * 3600`.
* `raise HTTPException(status_code, detail)` is an `Except.error`
  carrying the status code and the detail message; a normal return is
  `Except.ok`.  Handlers that can mutate global state return the new
  state paired with the result.
-/

deriving instance DecidableEq for Except

/-- HTTP outcome: `error (status, detail)` models `raise HTTPException`,
`ok` models a normal JSON response. -/
abbrev ApiResult (α : Type) := Except (Nat × String) α

/-- One record of the in-memory activity database (`app.py` lines 27-82). -/
structure Activity where
  description : String
  schedule : String
  max_participants : Nat
  participants : List String
deriving DecidableEq

/-- The activity database: dict from activity name to record. -/
abbrev Store := List (String × Activity)

/-- `ADMIN_SESSIONS`: dict from token to expiry timestamp. -/
abbrev SessionTable := List (String × Nat)

/-- One teacher credential from `teacher_credentials.json`. -/
structure Teacher where
  username : String
  password : String
deriving DecidableEq

/-- The seed data assigned to `activities` at startup (`app.py` lines 27-82). -/
def seedActivities : Store := [
  ("Chess Club",
   { description := "Learn strategies and compete in chess tournaments",
     schedule := "Fridays, 3:30 PM - 5:00 PM",
     max_participants := 12,
     participants := ["michael@mergington.edu", "daniel@mergington.edu"] }),
  ("Programming Class",
   { description := "Learn programming fundamentals and build software projects",
     schedule := "Tuesdays and Thursdays, 3:30 PM - 4:30 PM",
     max_participants := 20,
     participants := ["emma@mergington.edu", "sophia@mergington.edu"] }),
  ("Gym Class",
   { description := "Physical education and sports activities",
     schedule := "Mondays, Wednesdays, Fridays, 2:00 PM - 3:00 PM",
     max_participants := 30,
     participants := ["john@mergington.edu", "olivia@mergington.edu"] }),
  ("Soccer Team",
   { description := "Join the school soccer team and compete in matches",
     schedule := "Tuesdays and Thursdays, 4:00 PM - 5:30 PM",
     max_participants := 22,
     participants := ["liam@mergington.edu", "noah@mergington.edu"] }),
  ("Basketball Team",
   { description := "Practice and play basketball with the school team",
     schedule := "Wednesdays and Fridays, 3:30 PM - 5:00 PM",
     max_participants := 15,
     participants := ["ava@mergington.edu", "mia@mergington.edu"] }),
  ("Art Club",
   { description := "Explore your creativity through painting and drawing",
     schedule := "Thursdays, 3:30 PM - 5:00 PM",
     max_participants := 15,
     participants := ["amelia@mergington.edu", "harper@mergington.edu"] }),
  ("Drama Club",
   { description := "Act, direct, and produce plays and performances",
     schedule := "Mondays and Wednesdays, 4:00 PM - 5:30 PM",
     max_participants := 20,
     participants := ["ella@mergington.edu", "scarlett@mergington.edu"] }),
  ("Math Club",
   { description := "Solve challenging problems and participate in math competitions",
     schedule := "Tuesdays, 3:30 PM - 4:30 PM",
     max_participants := 10,
     participants := ["james@mergington.edu", "benjamin@mergington.edu"] }),
  ("Debate Team",
   { description := "Develop public speaking and argumentation skills",
     schedule := "Fridays, 4:00 PM - 5:30 PM",
     max_participants := 12,
     participants := ["charlotte@mergington.edu", "henry@mergington.edu"] })]

/-- Dict value update at an existing key: the entry keeps its position and
every other entry is untouched.  For the activity store this models the
in-place mutation `activity["participants"].append/remove` seen through
the dict; for the session table it is the overwrite half of assignment. -/
def dictSet {β : Type} (s : List (String × β)) (k : String) (v : β) :
    List (String × β) :=
  s.map (fun p => if p.1 = k then (k, v) else p)

/-- Dict assignment `d[k] = v`: overwrite in place if the key exists,
otherwise append a new entry. -/
def dictInsert (d : SessionTable) (k : String) (v : Nat) : SessionTable :=
  if d.any (fun p => p.1 = k) then dictSet d k v
  else d ++ [(k, v)]

/-- Dict removal `d.pop(k, None)`: drop the entry with key `k`, a no-op when
the key is absent (keys are unique, so the filter removes at most one entry). -/
def dictPop (d : SessionTable) (k : String) : SessionTable :=
  d.filter (fun p => p.1 ≠ k)

/-- Python `s.startswith(pre)` on character sequences. -/
def pyStartsWith (s pre : String) : Bool :=
  pre.data.isPrefixOf s.data

/-- The header normalisation shared by `_validate_admin_token` and
`admin_logout` (`app.py` lines 111-112 and 156): when the string starts
with the seven characters before a real token, `split(" ", 1)[1]` keeps
everything after the first space, i.e. the characters from index 7 on;
otherwise the string is used as-is. -/
def stripBearer (s : String) : String :=
  if pyStartsWith s "Bearer " then s.drop 7 else s

/-- `timedelta(hours=8)` in seconds. -/
def eightHours : Nat := 8 * 3600

/-- `_create_admin_token` (`app.py` lines 100-104), with the fresh
`uuid.uuid4().hex` value and the current time passed in explicitly:
records `token -> now + 8h` in the session table. -/
def _create_admin_token (sessions : SessionTable) (now : Nat) (token : String) :
    SessionTable :=
  dictInsert sessions token (now + eightHours)

/-- `_validate_admin_token` (`app.py` lines 107-124).  Returns the
(possibly cleaned-up) session table and the boolean verdict.  The
`fromisoformat` try/except is not modelled: every value the program
stores in `ADMIN_SESSIONS` is produced by `isoformat()` and parses back
to the recorded timestamp, so the except branch is unreachable. -/
def _validate_admin_token (sessions : SessionTable) (now : Nat) (token : String) :
    SessionTable × Bool :=
  if token = "" then (sessions, false)
  else
    let t := stripBearer token
    match sessions.lookup t with
    | none => (sessions, false)
    | some expiry =>
      if now > expiry then (dictPop sessions t, false)
      else (sessions, true)

/-- `require_admin` (`app.py` lines 127-130): validates
`authorization or ""` (a missing header and an empty header both become
`""`); `false` means the 401 `HTTPException` is raised. -/
def require_admin (sessions : SessionTable) (now : Nat)
    (authorization : Option String) : SessionTable × Bool :=
  _validate_admin_token sessions now (authorization.getD "")

/-- Successful login response body `{"token": ..., "expires_in_hours": 8}`. -/
structure LoginResponse where
  token : String
  expires_in_hours : Nat
deriving DecidableEq

/-- `admin_login` (`app.py` lines 133-149).  `credentials.get` yields
`none` for a missing field; `if not username or not password` is true
for a missing or empty value.  The loop takes the first credential whose
username and password both equal the submitted ones.  The fresh
`uuid.uuid4().hex` token and the current time are passed in explicitly. -/
def admin_login (teachers : List Teacher) (sessions : SessionTable) (now : Nat)
    (freshToken : String) (username password : Option String) :
    SessionTable × ApiResult LoginResponse :=
  if username.getD "" = "" ∨ password.getD "" = "" then
    (sessions, .error (400, "username and password required"))
  else if teachers.any (fun t =>
      t.username = username.getD "" ∧ t.password = password.getD "") then
    (_create_admin_token sessions now freshToken,
     .ok { token := freshToken, expires_in_hours := 8 })
  else
    (sessions, .error (401, "Invalid credentials"))

/-- `admin_logout` (`app.py` lines 152-158): `if not authorization` is
true for a missing or empty header; otherwise the optional prefix is
stripped and the token popped (absent tokens are a no-op). -/
def admin_logout (sessions : SessionTable) (authorization : Option String) :
    SessionTable × ApiResult String :=
  if authorization.getD "" = "" then
    (sessions, .error (400, "Authorization header required"))
  else
    (dictPop sessions (stripBearer (authorization.getD "")), .ok "logged out")

/-- `signup_for_activity` (`app.py` lines 172-191): 404 if the activity
is unknown, 400 if the email is already a participant, otherwise append
the email and return the confirmation message. -/
def signup_for_activity (acts : Store) (activity_name email : String) :
    Store × ApiResult String :=
  match acts.lookup activity_name with
  | none => (acts, .error (404, "Activity not found"))
  | some a =>
    if email ∈ a.participants then
      (acts, .error (400, "Student is already signed up"))
    else
      (dictSet acts activity_name
        { a with participants := a.participants ++ [email] },
       .ok (s!"Signed up {email} for {activity_name}"))

/-- The whole mutable global state touched by the admin-gated handlers. -/
structure AppState where
  activities : Store
  sessions : SessionTable
deriving DecidableEq

/-- `unregister_from_activity` (`app.py` lines 194-213), composed with its
`require_admin` dependency: 401 if the bearer token is missing or invalid
(an expired token is also evicted from the session table at this point),
then 404 if the activity is unknown, 400 if the email is not a
participant, otherwise remove the email (`list.remove` drops the first
occurrence) and return the confirmation message. -/
def unregister_from_activity (st : AppState) (now : Nat)
    (authorization : Option String) (activity_name email : String) :
    AppState × ApiResult String :=
  let v := require_admin st.sessions now authorization
  if v.2 then
    match st.activities.lookup activity_name with
    | none => ({ st with sessions := v.1 }, .error (404, "Activity not found"))
    | some a =>
      if email ∈ a.participants then
        ({ activities := dictSet st.activities activity_name
             { a with participants := a.participants.erase email },
           sessions := v.1 },
         .ok (s!"Unregistered {email} from {activity_name}"))
      else
        ({ st with sessions := v.1 },
         .error (400, "Student is not signed up for this activity"))
  else
    ({ st with sessions := v.1 }, .error (401, "Admin authentication required"))

/-- The possible states of the credential source file
`teacher_credentials.json` as distinguished by the loader
(`app.py` lines 86-94). -/
inductive CredSource where
  | missing
  | unreadable
  | malformed
  | wellFormed (teachers : List Teacher)
deriving DecidableEq

/-- The startup credential loading (`app.py` lines 86-94): the default is
`{"teachers": []}`; when the file exists, `open`/`json.load` is attempted
and any exception (unreadable file, content `json.load` rejects) resets
the credentials to the empty default.  The loader is a total function:
no source state makes startup raise. -/
def loadTeacherCreds : CredSource → List Teacher
  | .missing => []
  | .unreadable => []
  | .malformed => []
  | .wellFormed teachers => teachers

/-- One externally-triggerable mutation of the activity store, with the
ambient inputs (current time, authorization header) made explicit. -/
inductive Op where
  | signup (name email : String)
  | unregister (now : Nat) (auth : Option String) (name email : String)
deriving DecidableEq

/-- Apply one operation to the global state, keeping whatever state the
handler leaves behind whether it succeeds or raises. -/
def applyOp (st : AppState) : Op → AppState
  | .signup name email =>
    { st with activities := (signup_for_activity st.activities name email).1 }
  | .unregister now auth name email =>
    (unregister_from_activity st now auth name email).1

/-- Run a sequence of operations from a starting state. -/
def run (st : AppState) : List Op → AppState
  | [] => st
  | op :: ops => run (applyOp st op) ops

/-! ### Helper lemmas about the dict model -/

/-- A successful lookup exhibits a member of the association list. -/
theorem lookup_mem {β : Type} {l : List (String × β)} {k : String} {b : β}
    (h : l.lookup k = some b) : (k, b) ∈ l := by
  induction l with
  | nil => simp at h
  | cons p t ih =>
    obtain ⟨k', b'⟩ := p
    rw [List.lookup_cons] at h
    cases hk : (k == k') with
    | true =>
      rw [hk] at h
      simp only [Option.some.injEq] at h
      subst h
      have : k = k' := by simpa using hk
      subst this
      exact List.mem_cons_self _ _
    | false =>
      rw [hk] at h
      exact List.mem_cons_of_mem _ (ih h)

/-- Updating one key leaves every other key's lookup unchanged. -/
theorem lookup_dictSet_ne {β : Type} (s : List (String × β)) (k n : String) (v : β)
    (hne : n ≠ k) : (dictSet s k v).lookup n = s.lookup n := by
  induction s with
  | nil => rfl
  | cons p t ih =>
    obtain ⟨k', b⟩ := p
    by_cases hk : k' = k
    · subst hk
      simpa [dictSet, List.lookup_cons, beq_false_of_ne hne] using ih
    · cases hnk : (n == k') with
      | true => simp [dictSet, List.lookup_cons, if_neg hk, hnk]
      | false => simpa [dictSet, List.lookup_cons, if_neg hk, hnk] using ih

/-- Updating an existing key makes its lookup return the new value. -/
theorem lookup_dictSet_self {β : Type} (s : List (String × β)) (k : String) (v b : β)
    (h : s.lookup k = some b) : (dictSet s k v).lookup k = some v := by
  induction s with
  | nil => simp at h
  | cons p t ih =>
    obtain ⟨k', b'⟩ := p
    by_cases hk : k' = k
    · subst hk
      simp [dictSet, List.lookup_cons]
    · have hnk : (k == k') = false := beq_false_of_ne fun hkk => hk hkk.symm
      rw [List.lookup_cons, hnk] at h
      simpa [dictSet, List.lookup_cons, if_neg hk, hnk] using ih h

/-- Every member of an updated dict is the new entry or an old member. -/
theorem mem_dictSet {β : Type} {s : List (String × β)} {k : String} {v : β}
    {p : String × β} (h : p ∈ dictSet s k v) : p = (k, v) ∨ p ∈ s := by
  rw [dictSet, List.mem_map] at h
  obtain ⟨q, hq, hpq⟩ := h
  by_cases hk : q.1 = k
  · rw [if_pos hk] at hpq
    exact Or.inl hpq.symm
  · rw [if_neg hk] at hpq
    exact Or.inr (hpq ▸ hq)

/-- A validation that answers `true` leaves the session table unchanged. -/
theorem validate_true_sessions (sessions : SessionTable) (now : Nat) (tk : String)
    (h : (_validate_admin_token sessions now tk).2 = true) :
    (_validate_admin_token sessions now tk).1 = sessions := by
  by_cases he : tk = ""
  · simp [_validate_admin_token, he] at h
  · cases hl : sessions.lookup (stripBearer tk) with
    | none => simp [_validate_admin_token, if_neg he, hl] at h
    | some e =>
      by_cases hexp : now > e
      · simp [_validate_admin_token, if_neg he, hl, hexp] at h
      · simp [_validate_admin_token, if_neg he, hl, hexp]

/-! ### C1: signup behaviour -/

/-- C1: for every activity name and email, `signup_for_activity` fails
with 404 when the name is not a key of the activity map; otherwise fails
with 400 when the email is already in that activity's participants list;
otherwise appends the email to the end of that activity's participants
list and returns the 200 confirmation message. -/
theorem C1_signup_cases (acts : Store) (name email : String) :
    (acts.lookup name = none →
      signup_for_activity acts name email =
        (acts, .error (404, "Activity not found"))) ∧
    (∀ a, acts.lookup name = some a → email ∈ a.participants →
      signup_for_activity acts name email =
        (acts, .error (400, "Student is already signed up"))) ∧
    (∀ a, acts.lookup name = some a → email ∉ a.participants →
      signup_for_activity acts name email =
        (dictSet acts name { a with participants := a.participants ++ [email] },
         .ok (s!"Signed up {email} for {name}"))) := by
  refine ⟨fun h => ?_, fun a h hmem => ?_, fun a h hmem => ?_⟩
  · simp [signup_for_activity, h]
  · simp [signup_for_activity, h, hmem]
  · simp [signup_for_activity, h, hmem]

/-- Concrete instantiation of the three branches of `C1_signup_cases` on
the seed data. -/
theorem C1_signup_cases_witness :
    signup_for_activity seedActivities "Robotics Club" "kai@mergington.edu" =
      (seedActivities, .error (404, "Activity not found")) ∧
    signup_for_activity seedActivities "Chess Club" "michael@mergington.edu" =
      (seedActivities, .error (400, "Student is already signed up")) ∧
    signup_for_activity seedActivities "Chess Club" "kai@mergington.edu" =
      (dictSet seedActivities "Chess Club"
        { description := "Learn strategies and compete in chess tournaments",
          schedule := "Fridays, 3:30 PM - 5:00 PM",
          max_participants := 12,
          participants := ["michael@mergington.edu", "daniel@mergington.edu",
                           "kai@mergington.edu"] },
       .ok "Signed up kai@mergington.edu for Chess Club") :=
  ⟨(C1_signup_cases seedActivities "Robotics Club" "kai@mergington.edu").1 (by decide),
   (C1_signup_cases seedActivities "Chess Club" "michael@mergington.edu").2.1
     { description := "Learn strategies and compete in chess tournaments",
       schedule := "Fridays, 3:30 PM - 5:00 PM",
       max_participants := 12,
       participants := ["michael@mergington.edu", "daniel@mergington.edu"] }
     (by decide) (by decide),
   (C1_signup_cases seedActivities "Chess Club" "kai@mergington.edu").2.2
     { description := "Learn strategies and compete in chess tournaments",
       schedule := "Fridays, 3:30 PM - 5:00 PM",
       max_participants := 12,
       participants := ["michael@mergington.edu", "daniel@mergington.edu"] }
     (by decide) (by decide)⟩

/-! ### C2: unregister behaviour -/

/-- C2: `unregister_from_activity` first requires a valid admin bearer
token and fails with 401 when the token is missing or invalid; with a
valid token it fails with 404 when the activity name is not a key of the
activity map, with 400 when the email is not in that activity's
participants list, and otherwise removes the email from the list and
returns the 200 confirmation message. -/
theorem C2_unregister_cases (st : AppState) (now : Nat) (auth : Option String)
    (name email : String) :
    ((require_admin st.sessions now auth).2 = false →
      unregister_from_activity st now auth name email =
        ({ st with sessions := (require_admin st.sessions now auth).1 },
         .error (401, "Admin authentication required"))) ∧
    ((require_admin st.sessions now auth).2 = true →
      st.activities.lookup name = none →
      unregister_from_activity st now auth name email =
        (st, .error (404, "Activity not found"))) ∧
    (∀ a, (require_admin st.sessions now auth).2 = true →
      st.activities.lookup name = some a → email ∉ a.participants →
      unregister_from_activity st now auth name email =
        (st, .error (400, "Student is not signed up for this activity"))) ∧
    (∀ a, (require_admin st.sessions now auth).2 = true →
      st.activities.lookup name = some a → email ∈ a.participants →
      unregister_from_activity st now auth name email =
        ({ activities := dictSet st.activities name
             { a with participants := a.participants.erase email },
           sessions := st.sessions },
         .ok (s!"Unregistered {email} from {name}"))) := by
  refine ⟨fun h => ?_, fun h hl => ?_, fun a h hl hmem => ?_, fun a h hl hmem => ?_⟩
  · simp [unregister_from_activity, h]
  · have hs : (require_admin st.sessions now auth).1 = st.sessions :=
      validate_true_sessions _ _ _ h
    simp [unregister_from_activity, h, hl, hs]
  · have hs : (require_admin st.sessions now auth).1 = st.sessions :=
      validate_true_sessions _ _ _ h
    simp [unregister_from_activity, h, hl, hmem, hs]
  · have hs : (require_admin st.sessions now auth).1 = st.sessions :=
      validate_true_sessions _ _ _ h
    simp [unregister_from_activity, h, hl, hmem, hs]

/-- Concrete instantiation of the four branches of `C2_unregister_cases`:
a missing header gives 401, and with a valid unexpired token the three
store branches behave as in signup. -/
theorem C2_unregister_cases_witness :
    unregister_from_activity
        { activities := seedActivities, sessions := [("tok123", 100)] }
        50 none "Chess Club" "michael@mergington.edu" =
      ({ activities := seedActivities, sessions := [("tok123", 100)] },
       .error (401, "Admin authentication required")) ∧
    unregister_from_activity
        { activities := seedActivities, sessions := [("tok123", 100)] }
        50 (some "Bearer tok123") "Robotics Club" "kai@mergington.edu" =
      ({ activities := seedActivities, sessions := [("tok123", 100)] },
       .error (404, "Activity not found")) ∧
    unregister_from_activity
        { activities := seedActivities, sessions := [("tok123", 100)] }
        50 (some "Bearer tok123") "Chess Club" "kai@mergington.edu" =
      ({ activities := seedActivities, sessions := [("tok123", 100)] },
       .error (400, "Student is not signed up for this activity")) ∧
    unregister_from_activity
        { activities := seedActivities, sessions := [("tok123", 100)] }
        50 (some "Bearer tok123") "Chess Club" "michael@mergington.edu" =
      ({ activities := dictSet seedActivities "Chess Club"
           { description := "Learn strategies and compete in chess tournaments",
             schedule := "Fridays, 3:30 PM - 5:00 PM",
             max_participants := 12,
             participants := ["daniel@mergington.edu"] },
         sessions := [("tok123", 100)] },
       .ok "Unregistered michael@mergington.edu from Chess Club") :=
  ⟨(C2_unregister_cases
      { activities := seedActivities, sessions := [("tok123", 100)] }
      50 none "Chess Club" "michael@mergington.edu").1 (by decide),
   (C2_unregister_cases
      { activities := seedActivities, sessions := [("tok123", 100)] }
      50 (some "Bearer tok123") "Robotics Club" "kai@mergington.edu").2.1
     (by decide) (by decide),
   (C2_unregister_cases
      { activities := seedActivities, sessions := [("tok123", 100)] }
      50 (some "Bearer tok123") "Chess Club" "kai@mergington.edu").2.2.1
     { description := "Learn strategies and compete in chess tournaments",
       schedule := "Fridays, 3:30 PM - 5:00 PM",
       max_participants := 12,
       participants := ["michael@mergington.edu", "daniel@mergington.edu"] }
     (by decide) (by decide) (by decide),
   (C2_unregister_cases
      { activities := seedActivities, sessions := [("tok123", 100)] }
      50 (some "Bearer tok123") "Chess Club" "michael@mergington.edu").2.2.2
     { description := "Learn strategies and compete in chess tournaments",
       schedule := "Fridays, 3:30 PM - 5:00 PM",
       max_participants := 12,
       participants := ["michael@mergington.edu", "daniel@mergington.edu"] }
     (by decide) (by decide) (by decide)⟩

/-! ### C3: no capacity check -/

/-- C3: signup performs no capacity check: for every existing activity
and email not already signed up, signup succeeds and appends even when
the participants list is already at or over `max_participants`; and from
the seed data a state is reachable by signups alone in which an
activity's participants list is strictly longer than its
`max_participants`. -/
theorem C3_no_capacity_check (acts : Store) (name email : String) :
    (∀ a, acts.lookup name = some a → email ∉ a.participants →
      a.max_participants ≤ a.participants.length →
      signup_for_activity acts name email =
        (dictSet acts name { a with participants := a.participants ++ [email] },
         .ok (s!"Signed up {email} for {name}"))) ∧
    (∃ ops : List Op, ∃ a : Activity,
      (run { activities := seedActivities, sessions := [] } ops).activities.lookup
          "Math Club" = some a ∧
      a.max_participants < a.participants.length) := by
  constructor
  · intro a h hmem _
    simp [signup_for_activity, h, hmem]
  · refine ⟨[.signup "Math Club" "s1@mergington.edu",
             .signup "Math Club" "s2@mergington.edu",
             .signup "Math Club" "s3@mergington.edu",
             .signup "Math Club" "s4@mergington.edu",
             .signup "Math Club" "s5@mergington.edu",
             .signup "Math Club" "s6@mergington.edu",
             .signup "Math Club" "s7@mergington.edu",
             .signup "Math Club" "s8@mergington.edu",
             .signup "Math Club" "s9@mergington.edu"],
      { description := "Solve challenging problems and participate in math competitions",
        schedule := "Tuesdays, 3:30 PM - 4:30 PM",
        max_participants := 10,
        participants := ["james@mergington.edu", "benjamin@mergington.edu",
                         "s1@mergington.edu", "s2@mergington.edu",
                         "s3@mergington.edu", "s4@mergington.edu",
                         "s5@mergington.edu", "s6@mergington.edu",
                         "s7@mergington.edu", "s8@mergington.edu",
                         "s9@mergington.edu"] }, ?_, by decide⟩
    decide

/-- Concrete instantiation of the permissive branch of
`C3_no_capacity_check`: an activity already at capacity still accepts a
new signup. -/
theorem C3_no_capacity_check_witness :
    signup_for_activity
        [("Tiny Club", { description := "d", schedule := "s",
                         max_participants := 1,
                         participants := ["a@mergington.edu"] })]
        "Tiny Club" "b@mergington.edu" =
      ([("Tiny Club", { description := "d", schedule := "s",
                        max_participants := 1,
                        participants := ["a@mergington.edu", "b@mergington.edu"] })],
       .ok "Signed up b@mergington.edu for Tiny Club") :=
  (C3_no_capacity_check
      [("Tiny Club", { description := "d", schedule := "s",
                       max_participants := 1,
                       participants := ["a@mergington.edu"] })]
      "Tiny Club" "b@mergington.edu").1
    { description := "d", schedule := "s", max_participants := 1,
      participants := ["a@mergington.edu"] }
    (by decide) (by decide) (by decide)

/-! ### C4: token validation -/

/-- C4: `_validate_admin_token` accepts either a raw token or a string
with the `Bearer ` marker in front (which is stripped before lookup); it
returns `false` when the header is empty, when the stripped token is not
in the session table, or when the token's recorded expiry is in the
past; exactly in the expired case the entry is evicted from the session
table, and validating a valid unexpired token leaves the table
unchanged. -/
theorem C4_validate_token (sessions : SessionTable) (now : Nat) (hdr t : String) :
    (stripBearer ("Bearer " ++ t) = t) ∧
    (pyStartsWith hdr "Bearer " = false → stripBearer hdr = hdr) ∧
    (_validate_admin_token sessions now "" = (sessions, false)) ∧
    (hdr ≠ "" → sessions.lookup (stripBearer hdr) = none →
      _validate_admin_token sessions now hdr = (sessions, false)) ∧
    (∀ e, hdr ≠ "" → sessions.lookup (stripBearer hdr) = some e → now > e →
      _validate_admin_token sessions now hdr =
        (dictPop sessions (stripBearer hdr), false)) ∧
    (∀ e, hdr ≠ "" → sessions.lookup (stripBearer hdr) = some e → ¬ now > e →
      _validate_admin_token sessions now hdr = (sessions, true)) := by
  refine ⟨?_, fun h => ?_, ?_, fun he hl => ?_, fun e he hl hexp => ?_,
          fun e he hl hexp => ?_⟩
  · have hpre : pyStartsWith ("Bearer " ++ t) "Bearer " = true := by
      simp [pyStartsWith, String.data_append, List.isPrefixOf_iff_prefix]
    apply String.ext
    rw [stripBearer, hpre]
    simp only [if_true, String.data_drop, String.data_append]
    rfl
  · simp [stripBearer, h]
  · simp [_validate_admin_token]
  · simp [_validate_admin_token, if_neg he, hl]
  · simp [_validate_admin_token, if_neg he, hl, hexp]
  · simp [_validate_admin_token, if_neg he, hl, hexp]

/-- Concrete instantiation of the branches of `C4_validate_token`:
`tok` is recorded with expiry 100; validating at time 50 succeeds in both
header forms, a garbage header fails, and validating at time 200 fails
and evicts the entry. -/
theorem C4_validate_token_witness :
    stripBearer ("Bearer " ++ "tok") = "tok" ∧
    stripBearer "tok" = "tok" ∧
    _validate_admin_token [("tok", 100)] 50 "" = ([("tok", 100)], false) ∧
    _validate_admin_token [("tok", 100)] 50 "garbage" = ([("tok", 100)], false) ∧
    _validate_admin_token [("tok", 100)] 200 "Bearer tok" = ([], false) ∧
    _validate_admin_token [("tok", 100)] 50 "Bearer tok" = ([("tok", 100)], true) :=
  ⟨(C4_validate_token [("tok", 100)] 50 "x" "tok").1,
   (C4_validate_token [("tok", 100)] 50 "tok" "x").2.1 (by decide),
   (C4_validate_token [("tok", 100)] 50 "x" "x").2.2.1,
   (C4_validate_token [("tok", 100)] 50 "garbage" "x").2.2.2.1
     (by decide) (by decide),
   (C4_validate_token [("tok", 100)] 200 "Bearer tok" "x").2.2.2.2.1 100
     (by decide) (by decide) (by decide),
   (C4_validate_token [("tok", 100)] 50 "Bearer tok" "x").2.2.2.2.2 100
     (by decide) (by decide) (by decide)⟩

/-! ### C6: failed mutations are atomic -/

/-- C6: every signup call that raises (400 duplicate or 404 unknown)
leaves the activity store exactly unchanged, and every unregister call
that raises (401, 404 or 400) leaves the activity store exactly
unchanged — so every activity's participants list is untouched on every
error path. -/
theorem C6_error_paths_atomic (acts : Store) (st : AppState) (now : Nat)
    (auth : Option String) (name email : String) :
    (∀ e, (signup_for_activity acts name email).2 = .error e →
      (signup_for_activity acts name email).1 = acts) ∧
    (∀ e, (unregister_from_activity st now auth name email).2 = .error e →
      (unregister_from_activity st now auth name email).1.activities =
        st.activities) := by
  constructor
  · intro e he
    cases hl : acts.lookup name with
    | none => simp [signup_for_activity, hl]
    | some a =>
      by_cases hmem : email ∈ a.participants
      · simp [signup_for_activity, hl, hmem]
      · simp [signup_for_activity, hl, hmem] at he
  · intro e he
    by_cases hv : (require_admin st.sessions now auth).2 = true
    · cases hl : st.activities.lookup name with
      | none => simp [unregister_from_activity, hv, hl]
      | some a =>
        by_cases hmem : email ∈ a.participants
        · simp [unregister_from_activity, hv, hl, hmem] at he
        · simp [unregister_from_activity, hv, hl, hmem]
    · have hv' : (require_admin st.sessions now auth).2 = false := by
        simpa using hv
      simp [unregister_from_activity, hv']

/-- Concrete instantiation of `C6_error_paths_atomic`: a duplicate
signup and an unauthenticated unregister both leave the seed store
unchanged. -/
theorem C6_error_paths_atomic_witness :
    (signup_for_activity seedActivities "Chess Club"
        "michael@mergington.edu").1 = seedActivities ∧
    (unregister_from_activity { activities := seedActivities, sessions := [] }
        0 none "Chess Club" "michael@mergington.edu").1.activities =
      seedActivities :=
  ⟨(C6_error_paths_atomic seedActivities
      { activities := seedActivities, sessions := [] } 0 none
      "Chess Club" "michael@mergington.edu").1
      (400, "Student is already signed up") (by decide),
   (C6_error_paths_atomic seedActivities
      { activities := seedActivities, sessions := [] } 0 none
      "Chess Club" "michael@mergington.edu").2
      (401, "Admin authentication required") (by decide)⟩

/-! ### C5: admin login -/

/-- C5 counterexample: with both fields present in the body but the
username empty (`{"username": "", "password": "pw"}`) and no matching
credential, the claim prescribes the 401 "no credential matches" branch,
but the code's `if not username or not password` treats the empty string
like a missing field and returns 400. -/
theorem C5_login_counterexample :
    (admin_login [] [] 0 "tok" (some "") (some "pw")).2 ≠
      .error (401, "Invalid credentials") ∧
    (admin_login [] [] 0 "tok" (some "") (some "pw")).2 =
      .error (400, "username and password required") := by
  constructor
  · decide
  · decide

/-- C5 (amended): login returns 400 when either username or password is
missing from the body or present but empty; otherwise it scans the
loaded credentials for an exact username/password match, returns 401
when none matches, and on a match records the fresh token with expiry
now plus eight hours in the session table and returns 200 with body
`{token, expires_in_hours: 8}`. -/
theorem C5_login_cases (teachers : List Teacher) (sessions : SessionTable)
    (now : Nat) (fresh : String) (username password : Option String) :
    (username.getD "" = "" ∨ password.getD "" = "" →
      admin_login teachers sessions now fresh username password =
        (sessions, .error (400, "username and password required"))) ∧
    (username.getD "" ≠ "" → password.getD "" ≠ "" →
      (∀ t ∈ teachers,
        ¬(t.username = username.getD "" ∧ t.password = password.getD "")) →
      admin_login teachers sessions now fresh username password =
        (sessions, .error (401, "Invalid credentials"))) ∧
    (username.getD "" ≠ "" → password.getD "" ≠ "" →
      (∃ t ∈ teachers,
        t.username = username.getD "" ∧ t.password = password.getD "") →
      admin_login teachers sessions now fresh username password =
        (_create_admin_token sessions now fresh,
         .ok { token := fresh, expires_in_hours := 8 })) := by
  refine ⟨fun h => ?_, fun hu hp hno => ?_, fun hu hp hyes => ?_⟩
  · simp [admin_login, h]
  · simp [admin_login, hu, hp]
    exact fun t ht h1 h2 => hno t ht ⟨h1, h2⟩
  · simp [admin_login, hu, hp]
    exact hyes

/-- Concrete instantiation of the three branches of `C5_login_cases`. -/
theorem C5_login_cases_witness :
    admin_login [{ username := "ms.lee", password := "s3cret" }] [] 1000 "tok"
        none (some "s3cret") =
      ([], .error (400, "username and password required")) ∧
    admin_login [{ username := "ms.lee", password := "s3cret" }] [] 1000 "tok"
        (some "ms.lee") (some "wrong") =
      ([], .error (401, "Invalid credentials")) ∧
    admin_login [{ username := "ms.lee", password := "s3cret" }] [] 1000 "tok"
        (some "ms.lee") (some "s3cret") =
      ([("tok", 1000 + 8 * 3600)],
       .ok { token := "tok", expires_in_hours := 8 }) :=
  ⟨(C5_login_cases [{ username := "ms.lee", password := "s3cret" }] [] 1000 "tok"
      none (some "s3cret")).1 (by decide),
   (C5_login_cases [{ username := "ms.lee", password := "s3cret" }] [] 1000 "tok"
      (some "ms.lee") (some "wrong")).2.1 (by decide) (by decide) (by decide),
   (C5_login_cases [{ username := "ms.lee", password := "s3cret" }] [] 1000 "tok"
      (some "ms.lee") (some "s3cret")).2.2 (by decide) (by decide)
     ⟨{ username := "ms.lee", password := "s3cret" }, by decide, by decide⟩⟩

/-! ### C7: credential loading never raises -/

/-- C7: for every credential source state the loader is a total function
(startup never raises), and on a missing, unreadable or malformed source
it yields the empty credential set, so no admin login can succeed. -/
theorem C7_credentials_fail_safe (src : CredSource) (sessions : SessionTable)
    (now : Nat) (fresh : String) (username password : Option String) :
    (src = .missing ∨ src = .unreadable ∨ src = .malformed →
      loadTeacherCreds src = []) ∧
    (src = .missing ∨ src = .unreadable ∨ src = .malformed →
      ∀ r, (admin_login (loadTeacherCreds src) sessions now fresh
              username password).2 ≠ .ok r) := by
  have hempty : src = .missing ∨ src = .unreadable ∨ src = .malformed →
      loadTeacherCreds src = [] := by
    rintro (rfl | rfl | rfl) <;> rfl
  refine ⟨hempty, fun h r => ?_⟩
  rw [hempty h]
  by_cases hf : username.getD "" = "" ∨ password.getD "" = ""
  · simp [admin_login, hf]
  · push_neg at hf
    simp [admin_login, hf.1, hf.2]

/-- Concrete instantiation of `C7_credentials_fail_safe`: a malformed
credential file loads as the empty set, and a login attempt against it
cannot return a token. -/
theorem C7_credentials_fail_safe_witness :
    loadTeacherCreds .malformed = [] ∧
    (admin_login (loadTeacherCreds .malformed) [] 0 "tok" (some "ms.lee")
        (some "s3cret")).2 ≠ .ok { token := "tok", expires_in_hours := 8 } :=
  ⟨(C7_credentials_fail_safe .malformed [] 0 "tok" (some "ms.lee")
      (some "s3cret")).1 (by decide),
   (C7_credentials_fail_safe .malformed [] 0 "tok" (some "ms.lee")
      (some "s3cret")).2 (by decide) { token := "tok", expires_in_hours := 8 }⟩

/-! ### C8: logout -/

/-- Popping a key that is not in the dict leaves it unchanged. -/
theorem dictPop_lookup_none (d : SessionTable) (tk : String)
    (h : d.lookup tk = none) : dictPop d tk = d := by
  induction d with
  | nil => rfl
  | cons p t ih =>
    obtain ⟨k, v⟩ := p
    rw [List.lookup_cons] at h
    cases hk : (tk == k) with
    | true => rw [hk] at h; simp at h
    | false =>
      rw [hk] at h
      have hne : ¬(k = tk) := fun he => by simp [he] at hk
      have ht : dictPop t tk = t := ih h
      simp only [dictPop, List.filter_cons] at ht ⊢
      simpa [hne] using ht

/-- Popping the same key twice is the same as popping it once. -/
theorem dictPop_idem (d : SessionTable) (tk : String) :
    dictPop (dictPop d tk) tk = dictPop d tk := by
  simp [dictPop, List.filter_filter]

/-- C8 counterexample: the claim says logout returns 400 if and only if
no Authorization header is present, but on a present-yet-empty header
(`Authorization:` with an empty value, which `if not authorization`
treats like a missing one) the code also returns 400. -/
theorem C8_logout_counterexample :
    (some "" : Option String) ≠ none ∧
    (admin_logout [] (some "")).2 =
      .error (400, "Authorization header required") := by
  constructor
  · decide
  · decide

/-- C8 (amended): logout returns 400 if and only if the Authorization
header is missing or empty; otherwise it strips the optional `Bearer `
marker, removes the token from the session table if present, and
returns 200; it is idempotent — logging out a token absent from the
table is not an error, and a second logout of the same header yields
the same result and final state as the first. -/
theorem C8_logout_cases (sessions : SessionTable) (auth : Option String)
    (a tk : String) :
    ((admin_logout sessions auth).2 =
        .error (400, "Authorization header required") ↔
      auth.getD "" = "") ∧
    (a ≠ "" →
      admin_logout sessions (some a) =
        (dictPop sessions (stripBearer a), .ok "logged out")) ∧
    (sessions.lookup tk = none → dictPop sessions tk = sessions) ∧
    (a ≠ "" →
      admin_logout (admin_logout sessions (some a)).1 (some a) =
        admin_logout sessions (some a)) := by
  refine ⟨?_, fun h => ?_, dictPop_lookup_none sessions tk, fun h => ?_⟩
  · by_cases h : auth.getD "" = ""
    · simp [admin_logout, h]
    · simp [admin_logout, h]
  · simp [admin_logout, h]
  · simp [admin_logout, h, dictPop_idem]

/-- Concrete instantiation of `C8_logout_cases`: logging out
`Bearer tok` removes the entry, a second logout is a no-op with the same
response, and popping an unknown token leaves the table unchanged. -/
theorem C8_logout_cases_witness :
    ((admin_logout [("tok", 100)] (some "Bearer tok")).2 =
        .error (400, "Authorization header required") ↔
      (some "Bearer tok").getD "" = "") ∧
    admin_logout [("tok", 100)] (some "Bearer tok") = ([], .ok "logged out") ∧
    dictPop [("tok", 100)] "zzz" = [("tok", 100)] ∧
    admin_logout (admin_logout [("tok", 100)] (some "Bearer tok")).1
        (some "Bearer tok") =
      admin_logout [("tok", 100)] (some "Bearer tok") :=
  ⟨(C8_logout_cases [("tok", 100)] (some "Bearer tok") "Bearer tok" "zzz").1,
   (C8_logout_cases [("tok", 100)] (some "Bearer tok") "Bearer tok" "zzz").2.1
     (by decide),
   (C8_logout_cases [("tok", 100)] (some "Bearer tok") "Bearer tok" "zzz").2.2.1
     (by decide),
   (C8_logout_cases [("tok", 100)] (some "Bearer tok") "Bearer tok" "zzz").2.2.2
     (by decide)⟩

/-! ### C9: participants are distinct, in signup order -/

/-- Every activity record in the store has pairwise-distinct
participants. -/
def storeOK (s : Store) : Prop := ∀ p ∈ s, p.2.participants.Nodup

/-- The seed data satisfies the distinctness invariant. -/
theorem storeOK_seed : storeOK seedActivities := by
  unfold storeOK
  decide

/-- A signup call (successful or not) preserves the distinctness
invariant: it can only append an email that was absent. -/
theorem storeOK_signup (acts : Store) (name email : String) (h : storeOK acts) :
    storeOK (signup_for_activity acts name email).1 := by
  cases hl : acts.lookup name with
  | none => simpa [signup_for_activity, hl] using h
  | some a =>
    by_cases hmem : email ∈ a.participants
    · simpa [signup_for_activity, hl, hmem] using h
    · have hs : (signup_for_activity acts name email).1 =
          dictSet acts name { a with participants := a.participants ++ [email] } := by
        simp [signup_for_activity, hl, hmem]
      rw [hs]
      intro p hp
      rcases mem_dictSet hp with hpa | hpold
      · subst hpa
        have ha : a.participants.Nodup := h _ (lookup_mem hl)
        simp [List.nodup_append, ha, hmem]
      · exact h p hpold

/-- An unregister call (successful or not) preserves the distinctness
invariant: removing an element keeps the rest distinct. -/
theorem storeOK_unregister (st : AppState) (now : Nat) (auth : Option String)
    (name email : String) (h : storeOK st.activities) :
    storeOK (unregister_from_activity st now auth name email).1.activities := by
  by_cases hv : (require_admin st.sessions now auth).2 = true
  · cases hl : st.activities.lookup name with
    | none => simpa [unregister_from_activity, hv, hl] using h
    | some a =>
      by_cases hmem : email ∈ a.participants
      · have hs : (unregister_from_activity st now auth name email).1.activities =
            dictSet st.activities name
              { a with participants := a.participants.erase email } := by
          simp [unregister_from_activity, hv, hl, hmem]
        rw [hs]
        intro p hp
        rcases mem_dictSet hp with hpa | hpold
        · subst hpa
          exact (h _ (lookup_mem hl)).erase email
        · exact h p hpold
      · simpa [unregister_from_activity, hv, hl, hmem] using h
  · have hv' : (require_admin st.sessions now auth).2 = false := by simpa using hv
    simpa [unregister_from_activity, hv'] using h

/-- Each single operation preserves the distinctness invariant. -/
theorem storeOK_applyOp (st : AppState) (op : Op) (h : storeOK st.activities) :
    storeOK (applyOp st op).activities := by
  cases op with
  | signup name email => exact storeOK_signup _ _ _ h
  | unregister now auth name email => exact storeOK_unregister _ _ _ _ _ h

/-- Every state reached by a sequence of operations keeps the
distinctness invariant. -/
theorem storeOK_run (st : AppState) (ops : List Op) (h : storeOK st.activities) :
    storeOK (run st ops).activities := by
  induction ops generalizing st with
  | nil => exact h
  | cons op ops ih => exact ih _ (storeOK_applyOp _ _ h)

/-- C9: in every state reachable from the seed data (with any starting
session table) by signup and unregister operations, each activity's
participants list is pairwise distinct; a successful signup appends the
new email at the end of the list, and a successful unregister removes
exactly one occurrence of the email, the remaining entries keeping their
relative order (the new list is a sublist one element shorter). -/
theorem C9_participants_invariant (s0 : SessionTable) (ops : List Op)
    (name email : String) (acts : Store) (st : AppState) (now : Nat)
    (auth : Option String) :
    (∀ a, (run { activities := seedActivities, sessions := s0 } ops).activities.lookup
        name = some a → a.participants.Nodup) ∧
    (∀ a, acts.lookup name = some a → email ∉ a.participants →
      (signup_for_activity acts name email).1.lookup name =
        some { a with participants := a.participants ++ [email] }) ∧
    (∀ a, (require_admin st.sessions now auth).2 = true →
      st.activities.lookup name = some a → email ∈ a.participants →
      (unregister_from_activity st now auth name email).1.activities.lookup name =
        some { a with participants := a.participants.erase email } ∧
      (a.participants.erase email).Sublist a.participants ∧
      (a.participants.erase email).length + 1 = a.participants.length) := by
  refine ⟨fun a hl => ?_, fun a hl hmem => ?_, fun a hv hl hmem => ?_⟩
  · exact storeOK_run _ ops storeOK_seed _ (lookup_mem hl)
  · have hs : (signup_for_activity acts name email).1 =
        dictSet acts name { a with participants := a.participants ++ [email] } := by
      simp [signup_for_activity, hl, hmem]
    rw [hs]
    exact lookup_dictSet_self _ _ _ _ hl
  · have hs : (unregister_from_activity st now auth name email).1.activities =
        dictSet st.activities name
          { a with participants := a.participants.erase email } := by
      simp [unregister_from_activity, hv, hl, hmem]
    refine ⟨?_, List.erase_sublist _ _, ?_⟩
    · rw [hs]
      exact lookup_dictSet_self _ _ _ _ hl
    · have hlen := List.length_erase_of_mem hmem
      have hpos : 0 < a.participants.length := List.length_pos_of_mem hmem
      omega

/-- Concrete instantiation of `C9_participants_invariant`: after one
signup from the seed, the Chess Club roster is distinct; the signup
appended at the end; and an admin unregister removes exactly the one
matching entry. -/
theorem C9_participants_invariant_witness :
    (["michael@mergington.edu", "daniel@mergington.edu",
      "kai@mergington.edu"] : List String).Nodup ∧
    (signup_for_activity seedActivities "Chess Club"
        "kai@mergington.edu").1.lookup "Chess Club" =
      some { description := "Learn strategies and compete in chess tournaments",
             schedule := "Fridays, 3:30 PM - 5:00 PM",
             max_participants := 12,
             participants := ["michael@mergington.edu", "daniel@mergington.edu",
                              "kai@mergington.edu"] } ∧
    (unregister_from_activity
        { activities := seedActivities, sessions := [("tok", 100)] }
        50 (some "Bearer tok") "Chess Club"
        "michael@mergington.edu").1.activities.lookup "Chess Club" =
      some { description := "Learn strategies and compete in chess tournaments",
             schedule := "Fridays, 3:30 PM - 5:00 PM",
             max_participants := 12,
             participants := ["daniel@mergington.edu"] } :=
  ⟨(C9_participants_invariant [] [.signup "Chess Club" "kai@mergington.edu"]
      "Chess Club" "kai@mergington.edu" seedActivities
      { activities := seedActivities, sessions := [("tok", 100)] } 50
      (some "Bearer tok")).1
     { description := "Learn strategies and compete in chess tournaments",
       schedule := "Fridays, 3:30 PM - 5:00 PM",
       max_participants := 12,
       participants := ["michael@mergington.edu", "daniel@mergington.edu",
                        "kai@mergington.edu"] }
     (by decide),
   (C9_participants_invariant [] [] "Chess Club" "kai@mergington.edu"
      seedActivities
      { activities := seedActivities, sessions := [("tok", 100)] } 50
      (some "Bearer tok")).2.1
     { description := "Learn strategies and compete in chess tournaments",
       schedule := "Fridays, 3:30 PM - 5:00 PM",
       max_participants := 12,
       participants := ["michael@mergington.edu", "daniel@mergington.edu"] }
     (by decide) (by decide),
   ((C9_participants_invariant [] [] "Chess Club" "michael@mergington.edu"
      seedActivities
      { activities := seedActivities, sessions := [("tok", 100)] } 50
      (some "Bearer tok")).2.2
     { description := "Learn strategies and compete in chess tournaments",
       schedule := "Fridays, 3:30 PM - 5:00 PM",
       max_participants := 12,
       participants := ["michael@mergington.edu", "daniel@mergington.edu"] }
     (by decide) (by decide) (by decide)).1⟩

/-! ### C10: frame condition of successful mutations -/

/-- C10: a successful signup or unregister modifies only the named
activity's participants list.  The description, schedule and
`max_participants` of that activity are kept, every other activity's
lookup is unchanged, and the session table is untouched (signup never
reads it; a successful unregister validated a live token, which leaves
the table as it was). -/
theorem C10_frame (acts : Store) (st : AppState) (now : Nat)
    (auth : Option String) (name email : String) :
    (∀ msg, (signup_for_activity acts name email).2 = .ok msg →
      (∀ n, n ≠ name →
        (signup_for_activity acts name email).1.lookup n = acts.lookup n) ∧
      (∀ a, acts.lookup name = some a →
        (signup_for_activity acts name email).1.lookup name =
          some { description := a.description, schedule := a.schedule,
                 max_participants := a.max_participants,
                 participants := a.participants ++ [email] })) ∧
    (∀ s0, (applyOp { activities := acts, sessions := s0 }
        (.signup name email)).sessions = s0) ∧
    (∀ msg, (unregister_from_activity st now auth name email).2 = .ok msg →
      (unregister_from_activity st now auth name email).1.sessions =
          st.sessions ∧
      (∀ n, n ≠ name →
        (unregister_from_activity st now auth name email).1.activities.lookup n =
          st.activities.lookup n) ∧
      (∀ a, st.activities.lookup name = some a →
        (unregister_from_activity st now auth name email).1.activities.lookup
            name =
          some { description := a.description, schedule := a.schedule,
                 max_participants := a.max_participants,
                 participants := a.participants.erase email })) := by
  refine ⟨fun msg hok => ?_, fun s0 => rfl, fun msg hok => ?_⟩
  · cases hl : acts.lookup name with
    | none => simp [signup_for_activity, hl] at hok
    | some a =>
      by_cases hmem : email ∈ a.participants
      · simp [signup_for_activity, hl, hmem] at hok
      · have hs : (signup_for_activity acts name email).1 =
            dictSet acts name
              { a with participants := a.participants ++ [email] } := by
          simp [signup_for_activity, hl, hmem]
        rw [hs]
        refine ⟨fun n hn => lookup_dictSet_ne _ _ _ _ hn, fun a' ha' => ?_⟩
        cases ha'
        exact lookup_dictSet_self _ _ _ _ hl
  · by_cases hv : (require_admin st.sessions now auth).2 = true
    · cases hl : st.activities.lookup name with
      | none => simp [unregister_from_activity, hv, hl] at hok
      | some a =>
        by_cases hmem : email ∈ a.participants
        · have hsess : (require_admin st.sessions now auth).1 = st.sessions :=
            validate_true_sessions _ _ _ hv
          have hs : (unregister_from_activity st now auth name email).1 =
              { activities := dictSet st.activities name
                  { a with participants := a.participants.erase email },
                sessions := st.sessions } := by
            simp [unregister_from_activity, hv, hl, hmem, hsess]
          rw [hs]
          refine ⟨rfl, fun n hn => lookup_dictSet_ne _ _ _ _ hn,
                  fun a' ha' => ?_⟩
          cases ha'
          exact lookup_dictSet_self _ _ _ _ hl
        · simp [unregister_from_activity, hv, hl, hmem] at hok
    · have hv' : (require_admin st.sessions now auth).2 = false := by
        simpa using hv
      simp [unregister_from_activity, hv'] at hok

/-- Concrete instantiation of `C10_frame`: one successful signup and one
successful unregister on the seed: the Math Club entry is unchanged by
both, the mutated Chess Club record keeps its other fields, and the
session table survives the unregister. -/
theorem C10_frame_witness :
    (signup_for_activity seedActivities "Chess Club"
        "kai@mergington.edu").1.lookup "Math Club" =
      seedActivities.lookup "Math Club" ∧
    (signup_for_activity seedActivities "Chess Club"
        "kai@mergington.edu").1.lookup "Chess Club" =
      some { description := "Learn strategies and compete in chess tournaments",
             schedule := "Fridays, 3:30 PM - 5:00 PM",
             max_participants := 12,
             participants := ["michael@mergington.edu", "daniel@mergington.edu",
                              "kai@mergington.edu"] } ∧
    (unregister_from_activity
        { activities := seedActivities, sessions := [("tok", 100)] }
        50 (some "Bearer tok") "Chess Club"
        "michael@mergington.edu").1.sessions = [("tok", 100)] ∧
    (unregister_from_activity
        { activities := seedActivities, sessions := [("tok", 100)] }
        50 (some "Bearer tok") "Chess Club"
        "michael@mergington.edu").1.activities.lookup "Math Club" =
      seedActivities.lookup "Math Club" :=
  ⟨((C10_frame seedActivities
      { activities := seedActivities, sessions := [("tok", 100)] } 50
      (some "Bearer tok") "Chess Club" "kai@mergington.edu").1
      "Signed up kai@mergington.edu for Chess Club" (by decide)).1
     "Math Club" (by decide),
   ((C10_frame seedActivities
      { activities := seedActivities, sessions := [("tok", 100)] } 50
      (some "Bearer tok") "Chess Club" "kai@mergington.edu").1
      "Signed up kai@mergington.edu for Chess Club" (by decide)).2
     { description := "Learn strategies and compete in chess tournaments",
       schedule := "Fridays, 3:30 PM - 5:00 PM",
       max_participants := 12,
       participants := ["michael@mergington.edu", "daniel@mergington.edu"] }
     (by decide),
   ((C10_frame seedActivities
      { activities := seedActivities, sessions := [("tok", 100)] } 50
      (some "Bearer tok") "Chess Club" "michael@mergington.edu").2.2
      "Unregistered michael@mergington.edu from Chess Club" (by decide)).1,
   ((C10_frame seedActivities
      { activities := seedActivities, sessions := [("tok", 100)] } 50
      (some "Bearer tok") "Chess Club" "michael@mergington.edu").2.2
      "Unregistered michael@mergington.edu from Chess Club" (by decide)).2.1
     "Math Club" (by decide)⟩
